import Mathlib

set_option linter.unusedVariables false

/-!
Verification of the URL-summarization app (`src/app.py`).

Strings are embedded as `List Char`.  Python string operations used by the
program (`in`, `split`, `strip`, `lower`, slicing, `" ".join`) are modelled
below; `split` is total via a fuel argument (the fuel `s.length + 1` always
suffices because every removed separator is non-empty in this program).
External collaborators (the YouTube loader, the transcript API, yt-dlp, the
website loader, the Groq chain) are modelled as an environment record of
their outcomes for the single run triggered by one button click.
-/

/-- Bool test that `a` is a prefix of `b` (Python-style character match). -/
def isPrefixL : List Char → List Char → Bool
  | [], _ => true
  | _ :: _, [] => false
  | a :: as, b :: bs => a == b && isPrefixL as bs

/-- Leftmost occurrence of `sep` in `s`: returns the part strictly before the
occurrence and the part strictly after it, or `none` when `sep` does not occur. -/
def splitFirst (sep : List Char) : List Char → Option (List Char × List Char)
  | [] => if sep = [] then some ([], []) else none
  | c :: cs =>
    if isPrefixL sep (c :: cs) then some ([], List.drop sep.length (c :: cs))
    else (splitFirst sep cs).map (fun p => (c :: p.1, p.2))

/-- Python `sub in s` (contiguous substring test), computed by occurrence search. -/
def strContains (sub s : List Char) : Bool := (splitFirst sub s).isSome

/-- The predicate "`sub` occurs contiguously in `s`". -/
def OccursIn (sub s : List Char) : Prop := ∃ pre suf, s = pre ++ sub ++ suf

/-- Prefix of `s` up to (excluding) the first occurrence of `sep`;
`s` itself when `sep` does not occur.  This is Python `s.split(sep)[0]`. -/
def upToFirst (sep s : List Char) : List Char :=
  match splitFirst sep s with
  | some (pre, _) => pre
  | none => s

/-- Fuelled Python `s.split(sep)`: splits at every non-overlapping occurrence,
scanning left to right.  Fuel bounds the number of separators removed. -/
def pySplitF : Nat → List Char → List Char → List (List Char)
  | 0, _, s => [s]
  | fuel + 1, sep, s =>
    match splitFirst sep s with
    | none => [s]
    | some (pre, post) => pre :: pySplitF fuel sep post

/-- Python `s.split(sep)` for a non-empty separator (`s.length + 1` units of
fuel always suffice: each split consumes at least one character of `s`). -/
def pySplit (sep s : List Char) : List (List Char) := pySplitF (s.length + 1) sep s

/-- Python `s.lower()` (ASCII case folding, which covers this program's use). -/
def pyLower (s : List Char) : List Char := s.map Char.toLower

/-- Python `s.strip()`: drop leading and trailing whitespace. -/
def pyStrip (s : List Char) : List Char :=
  ((s.dropWhile Char.isWhitespace).reverse.dropWhile Char.isWhitespace).reverse

/-! ### String constants appearing in `src/app.py` -/

def S_YOUTUBECOM : List Char := "youtube.com".toList
def S_YTBE : List Char := "youtu.be".toList
def S_YTWATCH : List Char := "youtube.com/watch?v=".toList
def S_WATCHV : List Char := "watch?v=".toList
def S_YTBE_SLASH : List Char := "youtu.be/".toList
def S_AMP : List Char := "&".toList
def S_QMARK : List Char := "?".toList
def S_TEXTVAR : List Char := "{text}".toList
def S_TRANSCRIPT_API : List Char := "transcript-api".toList
def S_DESCRIPTION : List Char := "description".toList
def S_SOURCE_KEY : List Char := "source".toList
def S_METHOD_KEY : List Char := "method".toList
def S_GROQ_KEY_SUB : List Char := "groq_api_key".toList
def S_API_KEY_SUB : List Char := "api key".toList
def S_QUOTA_SUB : List Char := "quota".toList

/-- The model identifier passed to `ChatGroq` (line 89 of `src/app.py`). -/
def model_name : List Char := "gemma2-9b-it".toList

/-- The `chain_type` argument of `load_summarize_chain` (line 161). -/
def chain_type : List Char := "stuff".toList

/-- The triple-quoted `prompt_template` literal of lines 20-24, including the
newline right after the opening quotes and the blank line before the closing
quotes. -/
def prompt_template : List Char :=
  "\nProvide a summary of the following content in 300 words:\nContent:{text}\n\n".toList

/-! ### User-facing messages of `src/app.py` -/

def MSG_PROVIDE : List Char := "Please provide the information to get started".toList
def MSG_BAD_URL : List Char :=
  "Please enter a valid URL. It can be a YouTube video URL or website URL".toList
def MSG_NO_VIDEO_ID : List Char := "❌ Could not extract video ID from URL".toList
def MSG_ALL_FAILED : List Char := "❌ All YouTube loading methods failed".toList
def MSG_WEB_FAIL_PREFIX : List Char := "❌ Failed to load website: ".toList
def MSG_NO_CONTENT : List Char := "❌ Could not load any content from the URL".toList
def MSG_INVALID_KEY : List Char :=
  "❌ Invalid Groq API key. Please check your key and try again.".toList
def MSG_QUOTA : List Char := "❌ API quota exceeded. Please try again later.".toList
def MSG_UNEXPECTED_PREFIX : List Char := "❌ Unexpected error: ".toList
def MSG_INDEX_ERROR : List Char := "IndexError: list index out of range".toList

/-! ### Data model -/

/-- The anonymous per-request document wrapper of lines 120-123: extracted text
plus a metadata bag (modelled as an association list of string pairs). -/
structure SimpleDoc where
  page_content : List Char
  metadata : List (List Char × List Char)
  deriving DecidableEq

/-- One transcript segment as returned by the transcript service.  The code
reads only its `text` field (line 42); `start` and `duration` are unused. -/
structure TranscriptItem where
  text : List Char
  deriving DecidableEq

/-- Outcome of attempting one external import-plus-call block: success,
`ImportError` (library missing), or any other raised exception. -/
inductive ApiOutcome (α : Type) where
  | ok (a : α)
  | importError
  | failure (msg : List Char)
  deriving DecidableEq

/-- `true` when the outcome is not a success. -/
def ApiOutcome.failed : ApiOutcome α → Bool
  | .ok _ => false
  | _ => true

/-- The `info` mapping of `ydl.extract_info` as used by the code:
`info.get('description', '')` with the key possibly absent. -/
structure YtDlpInfo where
  description : Option (List Char)
  deriving DecidableEq

/-- The three content-acquisition strategies of the YouTube path, in the order
the code tries them. -/
inductive Strategy where
  | primaryLoader
  | transcriptService
  | descriptionFallback
  deriving DecidableEq

/-- Outcomes of every external call for one button click.  A strategy's entry
is consulted only when the code actually enters that strategy's block. -/
structure Env where
  urlValid : Bool
  llmInit : Except (List Char) Unit
  loaderResult : Except (List Char) (List SimpleDoc)
  transcript : ApiOutcome (List TranscriptItem)
  ytdlp : ApiOutcome YtDlpInfo
  webLoader : Except (List Char) (List SimpleDoc)
  chainRun : Except (List Char) (List Char)

/-- The two user inputs read by the button handler. -/
structure Inputs where
  groq_api_key : List Char
  generic_url : List Char

/-- The record of one `load_summarize_chain(...)` + `chain.run(docs)` call. -/
structure SummarizeCall where
  model : List Char
  chainType : List Char
  template : List Char
  docs : List SimpleDoc
  deriving DecidableEq

/-! ### The program (`src/app.py`) -/

/-- `extract_video_id` (lines 27-33).  Mirrors
`url.split("watch?v=")[1].split("&")[0]` and
`url.split("youtu.be/")[1].split("?")[0]`; a Python `IndexError` from `[1]`
is modelled as the `Except.error` branch (it is provably unreachable). -/
def extract_video_id (url : List Char) : Except (List Char) (Option (List Char)) :=
  if strContains S_YTWATCH url then
    match (pySplit S_WATCHV url).get? 1 with
    | some seg => Except.ok (some ((pySplit S_AMP seg).headD []))
    | none => Except.error MSG_INDEX_ERROR
  else if strContains S_YTBE_SLASH url then
    match (pySplit S_YTBE_SLASH url).get? 1 with
    | some seg => Except.ok (some ((pySplit S_QMARK seg).headD []))
    | none => Except.error MSG_INDEX_ERROR
  else Except.ok none

/-- `get_youtube_transcript` (lines 35-77), instrumented with the list of
strategy blocks that were entered so the ordering claims can be stated.
Returns `some (text, method)` for the two successful `return` statements and
`none` for `return None, None`; the `video_id` argument is consumed only by
the external calls, whose outcomes `env` records. -/
def get_youtube_transcript (env : Env) (video_id : List Char) :
    Option (List Char × List Char) × List Strategy :=
  match env.transcript with
  | .ok transcript_list =>
    (some (List.intercalate (" ".toList) (transcript_list.map TranscriptItem.text),
      S_TRANSCRIPT_API), [Strategy.transcriptService])
  | _ =>
    match env.ytdlp with
    | .ok info =>
      let description := info.description.getD []
      if description ≠ [] ∧ 100 < description.length then
        (some (description.take 2000, S_DESCRIPTION),
          [Strategy.transcriptService, Strategy.descriptionFallback])
      else (none, [Strategy.transcriptService, Strategy.descriptionFallback])
    | _ => (none, [Strategy.transcriptService, Strategy.descriptionFallback])

/-- The YouTube branch of the button handler after a video id was obtained
(lines 102-140): primary `YoutubeLoader`, then the transcript fallback with
the `if transcript_text:` truthiness guard.  Returns the loaded docs (if any),
the strategies entered, and the errors displayed. -/
def loadYoutubeDocs (env : Env) (generic_url video_id : List Char) :
    Option (List SimpleDoc) × List Strategy × List (List Char) :=
  match env.loaderResult with
  | .ok docs => (some docs, [Strategy.primaryLoader], [])
  | .error _ =>
    let r := get_youtube_transcript env video_id
    match r.1 with
    | some (transcript_text, method) =>
      if transcript_text = [] then
        (none, Strategy.primaryLoader :: r.2, [MSG_ALL_FAILED])
      else
        (some [{ page_content := transcript_text,
                 metadata := [(S_SOURCE_KEY, generic_url), (S_METHOD_KEY, method)] }],
          Strategy.primaryLoader :: r.2, [])
    | none => (none, Strategy.primaryLoader :: r.2, [MSG_ALL_FAILED])

/-- Intermediate state of the `try:` block of the button handler. -/
structure TryOut where
  errors : List (List Char)
  invoked : List Strategy
  docs : Option (List SimpleDoc)
  summCall : Option SummarizeCall
  shownSummary : Option (List Char)
  raised : Option (List Char)
  deriving DecidableEq

/-- A `TryOut` before the summarization step. -/
def initialTry (errs : List (List Char)) (inv : List Strategy)
    (docs : Option (List SimpleDoc)) : TryOut :=
  { errors := errs, invoked := inv, docs := docs,
    summCall := none, shownSummary := none, raised := none }

/-- The summarization call the code makes on a given document list:
`load_summarize_chain(llm, chain_type="stuff", prompt=prompt)` with the
`gemma2-9b-it` model, then `chain.run(docs)`. -/
def mkSummCall (ds : List SimpleDoc) : SummarizeCall :=
  { model := model_name, chainType := chain_type, template := prompt_template, docs := ds }

/-- Lines 158-173: `if docs and len(docs) > 0:` then build the stuff chain and
run it, displaying its output; otherwise display the no-content error.
An exception raised by `chain.run` propagates to the outer handler. -/
def summarizeStep (env : Env) (t : TryOut) : TryOut :=
  match t.docs with
  | some docs =>
    match docs with
    | [] => { t with errors := t.errors ++ [MSG_NO_CONTENT] }
    | d :: rest =>
      match env.chainRun with
      | .ok out =>
        { t with summCall := some (mkSummCall (d :: rest)), shownSummary := some out }
      | .error e =>
        { t with summCall := some (mkSummCall (d :: rest)), raised := some e }
  | none => { t with errors := t.errors ++ [MSG_NO_CONTENT] }

/-- The body of the `try:` block (lines 86-173): ChatGroq construction, the
URL-type branch of line 94, video-id extraction with the `if not video_id:`
truthiness guard (empty string and `None` alike), content loading, and the
summarization step. -/
def tryBody (env : Env) (generic_url : List Char) : TryOut :=
  match env.llmInit with
  | .error e => { initialTry [] [] none with raised := some e }
  | .ok _ =>
    if strContains S_YOUTUBECOM generic_url || strContains S_YTBE generic_url then
      match extract_video_id generic_url with
      | .error e => { initialTry [] [] none with raised := some e }
      | .ok video_id =>
        match video_id with
        | none => summarizeStep env (initialTry [MSG_NO_VIDEO_ID] [] none)
        | some v =>
          if v = [] then summarizeStep env (initialTry [MSG_NO_VIDEO_ID] [] none)
          else
            let r := loadYoutubeDocs env generic_url v
            summarizeStep env (initialTry r.2.2 r.2.1 r.1)
    else
      match env.webLoader with
      | .ok docs => summarizeStep env (initialTry [] [] (some docs))
      | .error e => summarizeStep env (initialTry [MSG_WEB_FAIL_PREFIX ++ e] [] none)

/-- The outer `except` handler (lines 175-182): lowercase the message (the
code's local `error_msg`, inlined here), check the credential substrings
first, then the quota substring, else report the raw message as unexpected. -/
def classify_error (e : List Char) : List Char :=
  if strContains S_GROQ_KEY_SUB (pyLower e) || strContains S_API_KEY_SUB (pyLower e) then
    MSG_INVALID_KEY
  else if strContains S_QUOTA_SUB (pyLower e) then MSG_QUOTA
  else MSG_UNEXPECTED_PREFIX ++ e

/-- Observable outcome of one button click. -/
structure RunResult where
  errorsShown : List (List Char)
  invoked : List Strategy
  docs : Option (List SimpleDoc)
  summCall : Option SummarizeCall
  shownSummary : Option (List Char)
  deriving DecidableEq

/-- Constructor shorthand for `RunResult`. -/
def mkRunResult (errs : List (List Char)) (inv : List Strategy)
    (docs : Option (List SimpleDoc)) (sc : Option SummarizeCall)
    (ss : Option (List Char)) : RunResult :=
  { errorsShown := errs, invoked := inv, docs := docs, summCall := sc, shownSummary := ss }

/-- Conversion of the `try:` outcome into the observable result: when an
exception reached the outer `except` handler (lines 175-182), the classified
message is displayed after whatever was already shown. -/
def exceptWrap (t : TryOut) : RunResult :=
  match t.raised with
  | none =>
    { errorsShown := t.errors, invoked := t.invoked, docs := t.docs,
      summCall := t.summCall, shownSummary := t.shownSummary }
  | some e =>
    { errorsShown := t.errors ++ [classify_error e], invoked := t.invoked,
      docs := t.docs, summCall := t.summCall, shownSummary := t.shownSummary }

/-- The whole button handler (lines 79-182): input validation, URL validation,
the `try:` body, and the outer `except` handler. -/
def runPipeline (env : Env) (inp : Inputs) : RunResult :=
  if (pyStrip inp.groq_api_key).isEmpty || (pyStrip inp.generic_url).isEmpty then
    { errorsShown := [MSG_PROVIDE], invoked := [], docs := none,
      summCall := none, shownSummary := none }
  else if !env.urlValid then
    { errorsShown := [MSG_BAD_URL], invoked := [], docs := none,
      summCall := none, shownSummary := none }
  else
    exceptWrap (tryBody env inp.generic_url)

/-- The URL classification of line 94 as a two-valued function. -/
inductive URLClass where
  | youtube
  | website
  deriving DecidableEq

/-- Line 94: `if "youtube.com" in generic_url or "youtu.be" in generic_url`. -/
def classify_url (url : List Char) : URLClass :=
  if strContains S_YOUTUBECOM url || strContains S_YTBE url then .youtube else .website

/-- The `method` entry of a document's metadata bag. -/
def metadataMethod (d : SimpleDoc) : Option (List Char) :=
  d.metadata.lookup S_METHOD_KEY

/-- Substitution of the single template variable, as Python `str.format` does
for the `PromptTemplate` of line 25: every occurrence of `{text}` is replaced
by the given content. -/
def fillTemplate (tmpl content : List Char) : List Char :=
  List.intercalate content (pySplit S_TEXTVAR tmpl)

/-- Modelled from the spec: the "stuff"-strategy summarization chain (built by
the external `load_summarize_chain` library call, whose code is not in `src/`)
sends the entire Document in one request, substituting its content into the
fixed prompt template. -/
def stuffPrompt (d : SimpleDoc) : List Char :=
  fillTemplate prompt_template d.page_content

/-! ### Spec reference definitions (for the refinement claim C1) -/

/-- The spec's reference video-id extractor, following its words: the
identifier is the substring after `watch?v=` up to (excluding) the first `&`
(the whole remainder when there is no `&`); else after `youtu.be/` up to the
first `?`; else nothing. -/
def extract_video_id_spec (url : List Char) : Option (List Char) :=
  if strContains S_YTWATCH url then
    match splitFirst S_WATCHV url with
    | some (_, rest) => some (upToFirst S_AMP rest)
    | none => none
  else if strContains S_YTBE_SLASH url then
    match splitFirst S_YTBE_SLASH url with
    | some (_, rest) => some (upToFirst S_QMARK rest)
    | none => none
  else none

/-- The amended reference extractor: the identifier is the segment of the URL
strictly between the first occurrence of `watch?v=` and the next
non-overlapping occurrence of `watch?v=` (the whole remainder when there is
none), truncated at its first `&`; the `youtu.be/` branch is analogous with
`?`.  This is exactly Python's `split(sep)[1]` semantics. -/
def extract_video_id_split_spec (url : List Char) : Option (List Char) :=
  if strContains S_YTWATCH url then
    match splitFirst S_WATCHV url with
    | some (_, rest) => some (upToFirst S_AMP (upToFirst S_WATCHV rest))
    | none => none
  else if strContains S_YTBE_SLASH url then
    match splitFirst S_YTBE_SLASH url with
    | some (_, rest) => some (upToFirst S_QMARK (upToFirst S_YTBE_SLASH rest))
    | none => none
  else none

/-! ### Concrete environments and inputs used by witnesses and counterexamples -/

/-- A neutral environment: valid URL, LLM client constructed, every external
loader failing, summarization succeeding. -/
def baseEnv : Env :=
  { urlValid := true, llmInit := Except.ok (),
    loaderResult := Except.error ("loader down".toList),
    transcript := ApiOutcome.importError, ytdlp := ApiOutcome.importError,
    webLoader := Except.error ("web down".toList),
    chainRun := Except.ok ("a fine summary".toList) }

def docC2 : SimpleDoc := { page_content := "native transcript".toList, metadata := [] }

def envC2 : Env :=
  { baseEnv with
    loaderResult := Except.ok [docC2] }

def inpC2 : Inputs :=
  { groq_api_key := "key".toList,
    generic_url := "https://www.youtube.com/watch?v=aircAruvnKk".toList }

def envC3 : Env :=
  { baseEnv with
    transcript := ApiOutcome.ok [{ text := "Hello".toList }, { text := "world".toList }] }

def urlC3 : List Char := "https://www.youtube.com/watch?v=UyyjU8fzEYU".toList

def infoC4 : YtDlpInfo := { description := some (List.replicate 101 'a') }

def envC4 : Env :=
  { baseEnv with
    transcript := ApiOutcome.failure ("no captions".toList),
    ytdlp := ApiOutcome.ok infoC4 }

def docC5 : SimpleDoc := { page_content := "hi there".toList, metadata := [] }

def envC5 : Env :=
  { baseEnv with
    webLoader := Except.ok [docC5],
    chainRun := Except.error ("invalid api key: quota exceeded".toList) }

def inpC5 : Inputs :=
  { groq_api_key := "key".toList, generic_url := "https://example.com".toList }

def docC6 : SimpleDoc := { page_content := "X".toList, metadata := [] }

def envC6 : Env :=
  { baseEnv with
    webLoader := Except.ok [docC6] }

def inpC6 : Inputs :=
  { groq_api_key := "key".toList,
    generic_url := "https://en.wikipedia.org/wiki/Artificial_intelligence".toList }

def docC8 : SimpleDoc := { page_content := [], metadata := [] }

def envC8 : Env :=
  { baseEnv with
    loaderResult := Except.ok [docC8] }

def inpC8 : Inputs :=
  { groq_api_key := "key".toList,
    generic_url := "https://www.youtube.com/watch?v=abc".toList }

def docC8w : SimpleDoc := { page_content := "body text".toList, metadata := [] }

def envC8w : Env :=
  { baseEnv with
    webLoader := Except.ok [docC8w] }

def inpC8w : Inputs :=
  { groq_api_key := "key".toList, generic_url := "https://www.bbc.com/news".toList }

def docC9 : SimpleDoc := { page_content := "native transcript".toList, metadata := [] }

def envC9 : Env :=
  { baseEnv with
    loaderResult := Except.ok [docC9] }

def envC9w : Env :=
  { baseEnv with
    transcript := ApiOutcome.ok [{ text := "Hello".toList }] }

def urlC9 : List Char := "https://www.youtube.com/watch?v=aircAruvnKk".toList

def inpC10 : Inputs :=
  { groq_api_key := "key".toList,
    generic_url := "https://www.youtube.com/watch?v=".toList }

/-! ### Helper lemmas about the string model -/

theorem isPrefixL_iff (a : List Char) : ∀ b, isPrefixL a b = true ↔ ∃ t, b = a ++ t := by
  induction a with
  | nil => intro b; simp [isPrefixL]
  | cons x xs ih =>
    intro b
    cases b with
    | nil => simp [isPrefixL]
    | cons y ys =>
      simp only [isPrefixL, Bool.and_eq_true, beq_iff_eq, ih, List.cons_append,
        List.cons.injEq]
      constructor
      · rintro ⟨hxy, t, ht⟩
        exact ⟨t, hxy.symm, ht⟩
      · rintro ⟨t, hyx, ht⟩
        exact ⟨hyx.symm, t, ht⟩

theorem strContains_iff (sub : List Char) : ∀ s, strContains sub s = true ↔ OccursIn sub s := by
  unfold strContains
  intro s
  induction s with
  | nil =>
    by_cases h : sub = []
    · subst h
      constructor
      · intro _
        exact ⟨[], [], rfl⟩
      · intro _
        simp [splitFirst]
    · constructor
      · intro hc
        simp [splitFirst, h] at hc
      · rintro ⟨p, q, hpq⟩
        have h0 : p ++ sub ++ q = [] := hpq.symm
        simp only [List.append_eq_nil] at h0
        exact absurd h0.1.2 h
  | cons c cs ih =>
    simp only [splitFirst]
    by_cases hp : isPrefixL sub (c :: cs) = true
    · rw [if_pos hp]
      simp only [Option.isSome_some, true_iff]
      obtain ⟨t, ht⟩ := (isPrefixL_iff _ _).mp hp
      exact ⟨[], t, by simpa using ht⟩
    · rw [if_neg hp]
      have hmap : ((splitFirst sub cs).map fun p => (c :: p.1, p.2)).isSome
          = (splitFirst sub cs).isSome := by
        cases splitFirst sub cs <;> rfl
      rw [hmap, ih]
      constructor
      · rintro ⟨p, q, hpq⟩
        exact ⟨c :: p, q, by rw [hpq]; rfl⟩
      · rintro ⟨p, q, hpq⟩
        cases p with
        | nil =>
          exact absurd ((isPrefixL_iff _ _).mpr ⟨q, by simpa using hpq⟩) hp
        | cons x p =>
          simp only [List.cons_append, List.cons.injEq] at hpq
          exact ⟨p, q, hpq.2⟩

theorem occursIn_tail (a b s : List Char) (h : OccursIn (a ++ b) s) : OccursIn b s := by
  obtain ⟨p, q, hs⟩ := h
  exact ⟨p ++ a, q, by rw [hs]; simp [List.append_assoc]⟩

theorem splitFirst_nil (sep : List Char) (h : sep ≠ []) : splitFirst sep [] = none := by
  simp [splitFirst, h]

theorem splitFirst_post_lt (sep : List Char) (hsep : sep ≠ []) :
    ∀ s pre post, splitFirst sep s = some (pre, post) → post.length < s.length := by
  intro s
  induction s with
  | nil => intro pre post h; rw [splitFirst_nil sep hsep] at h; exact absurd h (by simp)
  | cons c cs ih =>
    intro pre post h
    simp only [splitFirst] at h
    by_cases hp : isPrefixL sep (c :: cs) = true
    · rw [if_pos hp] at h
      obtain ⟨h1, h2⟩ := Prod.mk.injEq .. ▸ (Option.some.injEq .. ▸ h)
      subst h2
      have hlen : 1 ≤ sep.length := by
        cases sep with
        | nil => exact absurd rfl hsep
        | cons a as => simp
      calc (List.drop sep.length (c :: cs)).length
          = (c :: cs).length - sep.length := by rw [List.length_drop]
        _ ≤ (c :: cs).length - 1 := Nat.sub_le_sub_left hlen _
        _ < (c :: cs).length := by simp
    · rw [if_neg hp] at h
      cases hsf : splitFirst sep cs with
      | none => rw [hsf] at h; exact absurd h (by simp)
      | some p =>
        obtain ⟨pre', post'⟩ := p
        rw [hsf] at h
        simp only [Option.map_some', Option.some.injEq, Prod.mk.injEq] at h
        have := ih pre' post' hsf
        rw [← h.2]
        exact Nat.lt_succ_of_lt this

theorem pySplitF_head (fuel : Nat) (sep s : List Char) :
    (pySplitF (fuel + 1) sep s).head? = some (upToFirst sep s) := by
  cases h : splitFirst sep s with
  | none => simp [pySplitF, upToFirst, h]
  | some p =>
    obtain ⟨pre, post⟩ := p
    simp [pySplitF, upToFirst, h]

theorem pySplit_headD (sep s : List Char) : (pySplit sep s).headD [] = upToFirst sep s := by
  have h := pySplitF_head s.length sep s
  unfold pySplit
  cases hh : pySplitF (s.length + 1) sep s with
  | nil => rw [hh] at h; exact absurd h (by simp)
  | cons a l =>
    rw [hh] at h
    simp only [List.head?_cons, Option.some.injEq] at h
    simp [h]

theorem pySplitF_get0 (fuel : Nat) (sep s : List Char)
    (hs : fuel = 0 → splitFirst sep s = none) :
    (pySplitF fuel sep s).get? 0 = some (upToFirst sep s) := by
  cases fuel with
  | zero => simp [pySplitF, upToFirst, hs rfl]
  | succ n =>
    have h := pySplitF_head n sep s
    cases hh : pySplitF (n + 1) sep s with
    | nil => rw [hh] at h; exact absurd h (by simp)
    | cons a l =>
      rw [hh] at h
      simp only [List.head?_cons, Option.some.injEq] at h
      simp [h]

theorem pySplit_get1 (sep s pre post : List Char) (hsep : sep ≠ [])
    (h : splitFirst sep s = some (pre, post)) :
    (pySplit sep s).get? 1 = some (upToFirst sep post) := by
  cases s with
  | nil => rw [splitFirst_nil sep hsep] at h; exact absurd h (by simp)
  | cons c cs =>
    show (pySplitF (cs.length + 1 + 1) sep (c :: cs)).get? 1 = _
    have hlt : post.length < (c :: cs).length := splitFirst_post_lt sep hsep _ pre post h
    simp only [pySplitF, h]
    show (pySplitF (cs.length + 1) sep post).get? 0 = _
    apply pySplitF_get0
    intro hzero
    exact absurd hzero (by simp)

theorem strContains_some (sub url : List Char) (h : strContains sub url = true) :
    ∃ pre post, splitFirst sub url = some (pre, post) := by
  unfold strContains at h
  obtain ⟨p, hp⟩ := Option.isSome_iff_exists.mp h
  exact ⟨p.1, p.2, by rw [hp]⟩

theorem strContains_drop (a b url : List Char) (h : strContains (a ++ b) url = true) :
    strContains b url = true :=
  (strContains_iff _ _).mpr (occursIn_tail a b url ((strContains_iff _ _).mp h))

theorem strContains_to_watchv (url : List Char) (h : strContains S_YTWATCH url = true) :
    ∃ pre post, splitFirst S_WATCHV url = some (pre, post) := by
  apply strContains_some
  have hdec : S_YTWATCH = "youtube.com/".toList ++ S_WATCHV := by decide
  exact strContains_drop ("youtube.com/".toList) S_WATCHV url (hdec ▸ h)

/-- Claim C1 (counterexample): on a URL in which `watch?v=` occurs twice with
no `&` in between, the extractor returns the Python `split` segment between
the two occurrences, not "the substring after `watch?v=` up to the first `&`"
that the spec's reference definition prescribes. -/
theorem c1_video_id_counterexample :
    extract_video_id ("https://youtube.com/watch?v=abwatch?v=cd".toList)
        = Except.ok (some ("ab".toList)) ∧
    extract_video_id_spec ("https://youtube.com/watch?v=abwatch?v=cd".toList)
        = some ("abwatch?v=cd".toList) ∧
    ("ab".toList : List Char) ≠ "abwatch?v=cd".toList :=
  ⟨rfl, rfl, by decide⟩

/-- Claim C1 (amended): for every URL the extractor returns, without raising,
the spec's reference result amended to Python `split(sep)[1]` semantics: the
segment between the first occurrence of the separator and its next
non-overlapping occurrence (whole remainder if none), truncated at its first
`&` (resp. `?`); `none` when neither marker is contained. -/
theorem c1_video_id_amended (url : List Char) :
    extract_video_id url = Except.ok (extract_video_id_split_spec url) := by
  unfold extract_video_id extract_video_id_split_spec
  by_cases h1 : strContains S_YTWATCH url = true
  · obtain ⟨pre, post, hsf⟩ := strContains_to_watchv url h1
    simp only [h1, if_true, hsf, pySplit_get1 S_WATCHV url pre post (by decide) hsf,
      pySplit_headD]
  · by_cases h2 : strContains S_YTBE_SLASH url = true
    · obtain ⟨pre, post, hsf⟩ := strContains_some S_YTBE_SLASH url h2
      simp only [h1, h2, if_true, if_false, Bool.false_eq_true, hsf,
        pySplit_get1 S_YTBE_SLASH url pre post (by decide) hsf, pySplit_headD]
    · simp only [h1, h2, if_false, Bool.false_eq_true]

/-- Claim C7: the classifier of line 94 returns YouTube exactly when the URL
contains `youtube.com` or `youtu.be` as a substring, Website otherwise, and
these two outcomes are exhaustive. -/
theorem c7_url_classifier (url : List Char) :
    (classify_url url = URLClass.youtube ↔ OccursIn S_YOUTUBECOM url ∨ OccursIn S_YTBE url) ∧
    (classify_url url = URLClass.website ↔ ¬(OccursIn S_YOUTUBECOM url ∨ OccursIn S_YTBE url)) ∧
    (classify_url url = URLClass.youtube ∨ classify_url url = URLClass.website) := by
  have hcond : (strContains S_YOUTUBECOM url || strContains S_YTBE url) = true
      ↔ (OccursIn S_YOUTUBECOM url ∨ OccursIn S_YTBE url) := by
    rw [Bool.or_eq_true, strContains_iff, strContains_iff]
  unfold classify_url
  by_cases hb : (strContains S_YOUTUBECOM url || strContains S_YTBE url) = true
  · rw [if_pos hb]
    refine ⟨⟨fun _ => hcond.mp hb, fun _ => rfl⟩, ⟨fun hw => absurd hw (by decide),
      fun hn => absurd (hcond.mp hb) hn⟩, Or.inl rfl⟩
  · rw [if_neg hb]
    refine ⟨⟨fun hw => absurd hw (by decide), fun hOr => absurd (hcond.mpr hOr) hb⟩,
      ⟨fun _ => fun hOr => hb (hcond.mpr hOr), fun _ => rfl⟩, Or.inr rfl⟩

/-! ### Helper lemmas about the pipeline -/

theorem summarizeStep_invoked (env : Env) (t : TryOut) :
    (summarizeStep env t).invoked = t.invoked := by
  unfold summarizeStep
  cases t.docs with
  | none => rfl
  | some docs =>
    cases docs with
    | nil => rfl
    | cons d rest => cases env.chainRun <;> rfl

theorem summarizeStep_docs (env : Env) (t : TryOut) :
    (summarizeStep env t).docs = t.docs := by
  unfold summarizeStep
  cases t.docs with
  | none => rfl
  | some docs =>
    cases docs with
    | nil => rfl
    | cons d rest => cases env.chainRun <;> rfl

theorem summarizeStep_summCall (env : Env) (t : TryOut) (c : SummarizeCall)
    (h0 : t.summCall = none) (h : (summarizeStep env t).summCall = some c) :
    c.model = model_name ∧ c.chainType = chain_type ∧ c.template = prompt_template ∧
    c.docs ≠ [] ∧ t.docs = some c.docs ∧ (summarizeStep env t).errors = t.errors ∧
    (∀ out, env.chainRun = Except.ok out → (summarizeStep env t).shownSummary = some out
      ∧ (summarizeStep env t).raised = t.raised) ∧
    (∀ e, env.chainRun = Except.error e → (summarizeStep env t).raised = some e
      ∧ (summarizeStep env t).shownSummary = t.shownSummary) := by
  obtain ⟨errs, inv, dcs, sc, ss, rs⟩ := t
  obtain rfl : sc = none := h0
  cases dcs with
  | none => simp [summarizeStep] at h
  | some docs =>
    cases docs with
    | nil => simp [summarizeStep] at h
    | cons d rest =>
      cases hcr : env.chainRun with
      | ok out =>
        simp only [summarizeStep, hcr] at h
        obtain rfl : c = mkSummCall (d :: rest) := (Option.some.inj h).symm
        refine ⟨rfl, rfl, rfl, by simp [mkSummCall], rfl,
          by simp [summarizeStep, hcr], ?_, ?_⟩
        · intro out' hout
          obtain rfl : out = out' := Except.ok.inj hout
          exact ⟨by simp [summarizeStep, hcr], by simp [summarizeStep, hcr]⟩
        · intro e he
          exact Except.noConfusion he
      | error e =>
        simp only [summarizeStep, hcr] at h
        obtain rfl : c = mkSummCall (d :: rest) := (Option.some.inj h).symm
        refine ⟨rfl, rfl, rfl, by simp [mkSummCall], rfl,
          by simp [summarizeStep, hcr], ?_, ?_⟩
        · intro out hout
          exact Except.noConfusion hout
        · intro e' he
          obtain rfl : e = e' := Except.error.inj he
          exact ⟨by simp [summarizeStep, hcr], by simp [summarizeStep, hcr]⟩

theorem get_youtube_transcript_ok (env : Env) (vid : List Char) (items : List TranscriptItem)
    (h : env.transcript = ApiOutcome.ok items) :
    get_youtube_transcript env vid =
      (some (List.intercalate (" ".toList) (items.map TranscriptItem.text), S_TRANSCRIPT_API),
        [Strategy.transcriptService]) := by
  unfold get_youtube_transcript
  rw [h]

theorem get_youtube_transcript_notok (env : Env) (vid : List Char) (info : YtDlpInfo)
    (hf : env.transcript.failed = true) (hy : env.ytdlp = ApiOutcome.ok info) :
    (100 < (info.description.getD []).length →
      get_youtube_transcript env vid =
        (some ((info.description.getD []).take 2000, S_DESCRIPTION),
          [Strategy.transcriptService, Strategy.descriptionFallback])) ∧
    ((info.description.getD []).length ≤ 100 →
      get_youtube_transcript env vid =
        (none, [Strategy.transcriptService, Strategy.descriptionFallback])) := by
  have harm : get_youtube_transcript env vid =
      (if info.description.getD [] ≠ [] ∧ 100 < (info.description.getD []).length then
        (some ((info.description.getD []).take 2000, S_DESCRIPTION),
          [Strategy.transcriptService, Strategy.descriptionFallback])
      else (none, [Strategy.transcriptService, Strategy.descriptionFallback])) := by
    unfold get_youtube_transcript
    cases htr : env.transcript with
    | ok items => rw [htr] at hf; simp [ApiOutcome.failed] at hf
    | importError => rw [hy]
    | failure m => rw [hy]
  constructor
  · intro hlen
    have hne : info.description.getD [] ≠ [] := by
      intro h0
      rw [h0] at hlen
      simp at hlen
    rw [harm, if_pos ⟨hne, hlen⟩]
  · intro hlen
    have hng : ¬(info.description.getD [] ≠ [] ∧ 100 < (info.description.getD []).length) := by
      rintro ⟨-, hgt⟩
      omega
    rw [harm, if_neg hng]

theorem loadYoutubeDocs_ok (env : Env) (url vid : List Char) (ds : List SimpleDoc)
    (h : env.loaderResult = Except.ok ds) :
    loadYoutubeDocs env url vid = (some ds, [Strategy.primaryLoader], []) := by
  unfold loadYoutubeDocs
  rw [h]

theorem loadYoutubeDocs_fallback (env : Env) (url vid e : List Char)
    (hl : env.loaderResult = Except.error e) (ds : List SimpleDoc)
    (h : (loadYoutubeDocs env url vid).1 = some ds) :
    ∃ text method, (get_youtube_transcript env vid).1 = some (text, method) ∧ text ≠ [] ∧
      ds = [⟨text, [(S_SOURCE_KEY, url), (S_METHOD_KEY, method)]⟩] ∧
      loadYoutubeDocs env url vid =
        (some ds, Strategy.primaryLoader :: (get_youtube_transcript env vid).2, []) := by
  unfold loadYoutubeDocs at h ⊢
  rw [hl] at h ⊢
  cases hr : (get_youtube_transcript env vid).1 with
  | none => simp [hr] at h
  | some p =>
    obtain ⟨text, method⟩ := p
    by_cases ht : text = []
    · simp [hr, ht] at h
    · simp only [hr, if_neg ht] at h ⊢
      have hds : ([⟨text, [(S_SOURCE_KEY, url), (S_METHOD_KEY, method)]⟩] : List SimpleDoc)
          = ds := Option.some.inj h
      subst hds
      exact ⟨text, method, rfl, ht, rfl, rfl⟩

theorem loadYoutubeDocs_some_err (env : Env) (url vid : List Char) (ds : List SimpleDoc)
    (h : (loadYoutubeDocs env url vid).1 = some ds) :
    (loadYoutubeDocs env url vid).2.2 = [] := by
  cases hl : env.loaderResult with
  | ok ds0 => rw [loadYoutubeDocs_ok env url vid ds0 hl]
  | error e =>
    obtain ⟨text, method, -, -, -, heq⟩ := loadYoutubeDocs_fallback env url vid e hl ds h
    rw [heq]

theorem tryBody_eq_llmerr (env : Env) (url e0 : List Char)
    (hllm : env.llmInit = Except.error e0) :
    tryBody env url = { initialTry [] [] none with raised := some e0 } := by
  unfold tryBody
  rw [hllm]

theorem tryBody_eq_exterr (env : Env) (url : List Char) (u : Unit) (e1 : List Char)
    (hllm : env.llmInit = Except.ok u)
    (hyt : (strContains S_YOUTUBECOM url || strContains S_YTBE url) = true)
    (hex : extract_video_id url = Except.error e1) :
    tryBody env url = { initialTry [] [] none with raised := some e1 } := by
  unfold tryBody
  rw [hllm, if_pos hyt, hex]

theorem tryBody_eq_noid (env : Env) (url : List Char) (u : Unit)
    (hllm : env.llmInit = Except.ok u)
    (hyt : (strContains S_YOUTUBECOM url || strContains S_YTBE url) = true)
    (hex : extract_video_id url = Except.ok none) :
    tryBody env url = summarizeStep env (initialTry [MSG_NO_VIDEO_ID] [] none) := by
  unfold tryBody
  rw [hllm, if_pos hyt, hex]

theorem tryBody_eq_emptyid (env : Env) (url : List Char) (u : Unit)
    (hllm : env.llmInit = Except.ok u)
    (hyt : (strContains S_YOUTUBECOM url || strContains S_YTBE url) = true)
    (hex : extract_video_id url = Except.ok (some [])) :
    tryBody env url = summarizeStep env (initialTry [MSG_NO_VIDEO_ID] [] none) := by
  unfold tryBody
  rw [hllm, if_pos hyt, hex]
  rfl

theorem tryBody_eq_load (env : Env) (url : List Char) (u : Unit) (v : List Char)
    (hllm : env.llmInit = Except.ok u)
    (hyt : (strContains S_YOUTUBECOM url || strContains S_YTBE url) = true)
    (hex : extract_video_id url = Except.ok (some v)) (hv : v ≠ []) :
    tryBody env url = summarizeStep env
      (initialTry (loadYoutubeDocs env url v).2.2 (loadYoutubeDocs env url v).2.1
        (loadYoutubeDocs env url v).1) := by
  unfold tryBody
  rw [hllm, if_pos hyt, hex]
  show (if v = [] then summarizeStep env (initialTry [MSG_NO_VIDEO_ID] [] none)
    else summarizeStep env
      (initialTry (loadYoutubeDocs env url v).2.2 (loadYoutubeDocs env url v).2.1
        (loadYoutubeDocs env url v).1)) = _
  rw [if_neg hv]

theorem tryBody_eq_webok (env : Env) (url : List Char) (u : Unit) (ds : List SimpleDoc)
    (hllm : env.llmInit = Except.ok u)
    (hyt : (strContains S_YOUTUBECOM url || strContains S_YTBE url) = false)
    (hwl : env.webLoader = Except.ok ds) :
    tryBody env url = summarizeStep env (initialTry [] [] (some ds)) := by
  unfold tryBody
  rw [hllm, if_neg (by simp [hyt]), hwl]

theorem tryBody_eq_weberr (env : Env) (url : List Char) (u : Unit) (e2 : List Char)
    (hllm : env.llmInit = Except.ok u)
    (hyt : (strContains S_YOUTUBECOM url || strContains S_YTBE url) = false)
    (hwl : env.webLoader = Except.error e2) :
    tryBody env url = summarizeStep env (initialTry [MSG_WEB_FAIL_PREFIX ++ e2] [] none) := by
  unfold tryBody
  rw [hllm, if_neg (by simp [hyt]), hwl]

theorem exceptWrap_none (t : TryOut) (h : t.raised = none) :
    exceptWrap t = mkRunResult t.errors t.invoked t.docs t.summCall t.shownSummary := by
  unfold exceptWrap
  rw [h]
  rfl

theorem exceptWrap_some (t : TryOut) (e : List Char) (h : t.raised = some e) :
    exceptWrap t =
      mkRunResult (t.errors ++ [classify_error e]) t.invoked t.docs t.summCall t.shownSummary := by
  unfold exceptWrap
  rw [h]
  rfl

theorem runPipeline_eq_go (env : Env) (inp : Inputs)
    (h1 : ((pyStrip inp.groq_api_key).isEmpty || (pyStrip inp.generic_url).isEmpty) = false)
    (h2 : env.urlValid = true) :
    runPipeline env inp = exceptWrap (tryBody env inp.generic_url) := by
  unfold runPipeline
  rw [if_neg (by simp [h1]), if_neg (by simp [h2])]

theorem tryBody_summCall (env : Env) (url : List Char) (c : SummarizeCall)
    (h : (tryBody env url).summCall = some c) :
    c.model = model_name ∧ c.chainType = chain_type ∧ c.template = prompt_template ∧
    c.docs ≠ [] ∧ (tryBody env url).errors = [] ∧
    (∀ out, env.chainRun = Except.ok out → (tryBody env url).shownSummary = some out
      ∧ (tryBody env url).raised = none) ∧
    (∀ e, env.chainRun = Except.error e → (tryBody env url).raised = some e
      ∧ (tryBody env url).shownSummary = none) := by
  cases hllm : env.llmInit with
  | error e0 =>
    rw [tryBody_eq_llmerr env url e0 hllm] at h
    exact absurd h (by simp [initialTry])
  | ok u =>
    by_cases hyt : (strContains S_YOUTUBECOM url || strContains S_YTBE url) = true
    · cases hex : extract_video_id url with
      | error e1 =>
        rw [tryBody_eq_exterr env url u e1 hllm hyt hex] at h
        exact absurd h (by simp [initialTry])
      | ok vid =>
        cases vid with
        | none =>
          rw [tryBody_eq_noid env url u hllm hyt hex] at h
          have hs := summarizeStep_summCall env _ c rfl h
          exact absurd hs.2.2.2.2.1 (by simp [initialTry])
        | some v =>
          by_cases hv : v = []
          · subst hv
            rw [tryBody_eq_emptyid env url u hllm hyt hex] at h
            have hs := summarizeStep_summCall env _ c rfl h
            exact absurd hs.2.2.2.2.1 (by simp [initialTry])
          · rw [tryBody_eq_load env url u v hllm hyt hex hv] at h ⊢
            have hs := summarizeStep_summCall env _ c rfl h
            have hdocs : (loadYoutubeDocs env url v).1 = some c.docs := hs.2.2.2.2.1
            have herr : (loadYoutubeDocs env url v).2.2 = [] :=
              loadYoutubeDocs_some_err env url v c.docs hdocs
            refine ⟨hs.1, hs.2.1, hs.2.2.1, hs.2.2.2.1, ?_, ?_, ?_⟩
            · rw [hs.2.2.2.2.2.1]
              exact herr
            · intro out hout
              exact hs.2.2.2.2.2.2.1 out hout
            · intro e he
              exact hs.2.2.2.2.2.2.2 e he
    · cases hwl : env.webLoader with
      | ok ds =>
        have hytf : (strContains S_YOUTUBECOM url || strContains S_YTBE url) = false := by
          simp only [Bool.not_eq_true] at hyt
          exact hyt
        rw [tryBody_eq_webok env url u ds hllm hytf hwl] at h ⊢
        have hs := summarizeStep_summCall env _ c rfl h
        refine ⟨hs.1, hs.2.1, hs.2.2.1, hs.2.2.2.1, ?_, ?_, ?_⟩
        · rw [hs.2.2.2.2.2.1]
          rfl
        · intro out hout
          exact hs.2.2.2.2.2.2.1 out hout
        · intro e he
          exact hs.2.2.2.2.2.2.2 e he
      | error e2 =>
        have hytf : (strContains S_YOUTUBECOM url || strContains S_YTBE url) = false := by
          simp only [Bool.not_eq_true] at hyt
          exact hyt
        rw [tryBody_eq_weberr env url u e2 hllm hytf hwl] at h
        have hs := summarizeStep_summCall env _ c rfl h
        exact absurd hs.2.2.2.2.1 (by simp [initialTry])

theorem runPipeline_summCall (env : Env) (inp : Inputs) (c : SummarizeCall)
    (h : (runPipeline env inp).summCall = some c) :
    c.model = model_name ∧ c.chainType = chain_type ∧ c.template = prompt_template ∧
    c.docs ≠ [] ∧
    (∀ out, env.chainRun = Except.ok out →
      (runPipeline env inp).shownSummary = some out ∧ (runPipeline env inp).errorsShown = []) ∧
    (∀ e, env.chainRun = Except.error e →
      (runPipeline env inp).errorsShown = [classify_error e] ∧
      (runPipeline env inp).shownSummary = none) := by
  by_cases h1 : ((pyStrip inp.groq_api_key).isEmpty || (pyStrip inp.generic_url).isEmpty) = true
  · unfold runPipeline at h
    rw [if_pos h1] at h
    exact absurd h (by simp [mkRunResult])
  · by_cases h2 : env.urlValid = true
    · have h1f : ((pyStrip inp.groq_api_key).isEmpty || (pyStrip inp.generic_url).isEmpty)
          = false := by
        simp only [Bool.not_eq_true] at h1
        exact h1
      rw [runPipeline_eq_go env inp h1f h2] at h ⊢
      cases hrs : (tryBody env inp.generic_url).raised with
      | none =>
        rw [exceptWrap_none _ hrs] at h ⊢
        have ht := tryBody_summCall env inp.generic_url c h
        refine ⟨ht.1, ht.2.1, ht.2.2.1, ht.2.2.2.1, ?_, ?_⟩
        · intro out hout
          exact ⟨(ht.2.2.2.2.2.1 out hout).1, ht.2.2.2.2.1⟩
        · intro e he
          exact absurd ((ht.2.2.2.2.2.2 e he).1.symm.trans hrs) (by simp)
      | some e0 =>
        rw [exceptWrap_some _ e0 hrs] at h ⊢
        have ht := tryBody_summCall env inp.generic_url c h
        refine ⟨ht.1, ht.2.1, ht.2.2.1, ht.2.2.2.1, ?_, ?_⟩
        · intro out hout
          exact absurd ((ht.2.2.2.2.2.1 out hout).2.symm.trans hrs) (by simp)
        · intro e he
          obtain rfl : e0 = e :=
            Option.some.inj (hrs.symm.trans (ht.2.2.2.2.2.2 e he).1)
          constructor
          · show (tryBody env inp.generic_url).errors ++ [classify_error e0] = [classify_error e0]
            rw [ht.2.2.2.2.1]
            rfl
          · show (tryBody env inp.generic_url).shownSummary = none
            exact (ht.2.2.2.2.2.2 e0 he).2
    · unfold runPipeline at h
      rw [if_neg (by simp only [Bool.not_eq_true] at h1; simp [h1]),
        if_pos (by simp only [Bool.not_eq_true] at h2 ⊢; simp [h2])] at h
      exact absurd h (by simp [mkRunResult])

theorem exceptWrap_invoked (t : TryOut) : (exceptWrap t).invoked = t.invoked := by
  unfold exceptWrap
  cases t.raised <;> rfl

theorem tryBody_invoked_primary (env : Env) (url : List Char) (ds : List SimpleDoc)
    (hl : env.loaderResult = Except.ok ds) :
    (tryBody env url).invoked = [] ∨ (tryBody env url).invoked = [Strategy.primaryLoader] := by
  cases hllm : env.llmInit with
  | error e0 =>
    rw [tryBody_eq_llmerr env url e0 hllm]
    exact Or.inl rfl
  | ok u =>
    by_cases hyt : (strContains S_YOUTUBECOM url || strContains S_YTBE url) = true
    · cases hex : extract_video_id url with
      | error e1 =>
        rw [tryBody_eq_exterr env url u e1 hllm hyt hex]
        exact Or.inl rfl
      | ok vid =>
        cases vid with
        | none =>
          rw [tryBody_eq_noid env url u hllm hyt hex, summarizeStep_invoked]
          exact Or.inl rfl
        | some v =>
          by_cases hv : v = []
          · subst hv
            rw [tryBody_eq_emptyid env url u hllm hyt hex, summarizeStep_invoked]
            exact Or.inl rfl
          · rw [tryBody_eq_load env url u v hllm hyt hex hv, summarizeStep_invoked,
              loadYoutubeDocs_ok env url v ds hl]
            exact Or.inr rfl
    · have hytf : (strContains S_YOUTUBECOM url || strContains S_YTBE url) = false := by
        simp only [Bool.not_eq_true] at hyt
        exact hyt
      cases hwl : env.webLoader with
      | ok ds0 =>
        rw [tryBody_eq_webok env url u ds0 hllm hytf hwl, summarizeStep_invoked]
        exact Or.inl rfl
      | error e2 =>
        rw [tryBody_eq_weberr env url u e2 hllm hytf hwl, summarizeStep_invoked]
        exact Or.inl rfl

theorem runPipeline_invoked_primary (env : Env) (inp : Inputs) (ds : List SimpleDoc)
    (hl : env.loaderResult = Except.ok ds) :
    (runPipeline env inp).invoked = [] ∨
      (runPipeline env inp).invoked = [Strategy.primaryLoader] := by
  by_cases h1 : ((pyStrip inp.groq_api_key).isEmpty || (pyStrip inp.generic_url).isEmpty) = true
  · unfold runPipeline
    rw [if_pos h1]
    exact Or.inl rfl
  · by_cases h2 : env.urlValid = true
    · have h1f : ((pyStrip inp.groq_api_key).isEmpty || (pyStrip inp.generic_url).isEmpty)
          = false := by
        simp only [Bool.not_eq_true] at h1
        exact h1
      rw [runPipeline_eq_go env inp h1f h2, exceptWrap_invoked]
      exact tryBody_invoked_primary env inp.generic_url ds hl
    · unfold runPipeline
      rw [if_neg (by simp only [Bool.not_eq_true] at h1; simp [h1]),
        if_pos (by simp only [Bool.not_eq_true] at h2 ⊢; simp [h2])]
      exact Or.inl rfl

/-- Claim C2: when the primary YoutubeLoader succeeds, its documents are used
as returned, only the primary strategy's block is entered, and neither the
transcript service nor the description fallback is ever invoked anywhere in
the pipeline run. -/
theorem c2_strategy_order (env : Env) (url vid : List Char) (ds : List SimpleDoc)
    (hl : env.loaderResult = Except.ok ds) :
    loadYoutubeDocs env url vid = (some ds, [Strategy.primaryLoader], []) ∧
    (∀ inp : Inputs, Strategy.transcriptService ∉ (runPipeline env inp).invoked ∧
      Strategy.descriptionFallback ∉ (runPipeline env inp).invoked) := by
  refine ⟨loadYoutubeDocs_ok env url vid ds hl, ?_⟩
  intro inp
  rcases runPipeline_invoked_primary env inp ds hl with h | h <;> rw [h] <;>
    exact ⟨by simp, by simp⟩

/-- Witness for C2 at a concrete environment in which the primary loader
returns one document. -/
theorem c2_witness :
    loadYoutubeDocs envC2 inpC2.generic_url ("aircAruvnKk".toList)
        = (some [docC2], [Strategy.primaryLoader], []) ∧
    Strategy.transcriptService ∉ (runPipeline envC2 inpC2).invoked ∧
    Strategy.descriptionFallback ∉ (runPipeline envC2 inpC2).invoked := by
  have h := c2_strategy_order envC2 inpC2.generic_url ("aircAruvnKk".toList) [docC2] rfl
  exact ⟨h.1, (h.2 inpC2).1, (h.2 inpC2).2⟩

/-- Claim C3: when the primary loader fails and the transcript service
returns segments, the acquired Document's content is the segments' texts
joined by single spaces in order, with metadata source = the input URL and
method = "transcript-api". -/
theorem c3_transcript_document (env : Env) (url vid e : List Char)
    (items : List TranscriptItem)
    (hl : env.loaderResult = Except.error e)
    (htr : env.transcript = ApiOutcome.ok items)
    (hne : List.intercalate (" ".toList) (items.map TranscriptItem.text) ≠ []) :
    loadYoutubeDocs env url vid =
      (some [⟨List.intercalate (" ".toList) (items.map TranscriptItem.text),
        [(S_SOURCE_KEY, url), (S_METHOD_KEY, S_TRANSCRIPT_API)]⟩],
       [Strategy.primaryLoader, Strategy.transcriptService], []) := by
  unfold loadYoutubeDocs
  rw [hl, get_youtube_transcript_ok env vid items htr]
  show (if List.intercalate (" ".toList) (items.map TranscriptItem.text) = [] then
      (none, Strategy.primaryLoader :: [Strategy.transcriptService], [MSG_ALL_FAILED])
    else
      (some [SimpleDoc.mk (List.intercalate (" ".toList) (items.map TranscriptItem.text))
        [(S_SOURCE_KEY, url), (S_METHOD_KEY, S_TRANSCRIPT_API)]],
        Strategy.primaryLoader :: [Strategy.transcriptService], [])) = _
  rw [if_neg hne]

/-- Witness for C3: segments ["Hello", "world"] produce exactly the content
"Hello world" (the spec's scenario). -/
theorem c3_witness :
    loadYoutubeDocs envC3 urlC3 ("UyyjU8fzEYU".toList) =
      (some [⟨"Hello world".toList,
        [(S_SOURCE_KEY, urlC3), (S_METHOD_KEY, S_TRANSCRIPT_API)]⟩],
       [Strategy.primaryLoader, Strategy.transcriptService], []) := by
  have h := c3_transcript_document envC3 urlC3 ("UyyjU8fzEYU".toList) ("loader down".toList)
    [{ text := "Hello".toList }, { text := "world".toList }] rfl rfl (by decide)
  exact h

/-- Claim C4: the description fallback succeeds iff the fetched description
is longer than 100 characters; on success it returns its first
min(length, 2000) characters (hence at most 2000) tagged "description"; for
length at most 100 it fails, and with the primary loader also failed no
document is acquired at all. -/
theorem c4_description_fallback (env : Env) (vid : List Char) (info : YtDlpInfo)
    (hf : env.transcript.failed = true) (hy : env.ytdlp = ApiOutcome.ok info) :
    (100 < (info.description.getD []).length →
      get_youtube_transcript env vid =
        (some ((info.description.getD []).take 2000, S_DESCRIPTION),
          [Strategy.transcriptService, Strategy.descriptionFallback]) ∧
      ((info.description.getD []).take 2000).length
        = min (info.description.getD []).length 2000 ∧
      ((info.description.getD []).take 2000).length ≤ 2000) ∧
    ((info.description.getD []).length ≤ 100 →
      (get_youtube_transcript env vid).1 = none ∧
      (∀ url e, env.loaderResult = Except.error e →
        (loadYoutubeDocs env url vid).1 = none)) := by
  have h := get_youtube_transcript_notok env vid info hf hy
  constructor
  · intro hlen
    refine ⟨h.1 hlen, ?_, ?_⟩
    · rw [List.length_take]
      exact Nat.min_comm _ _
    · rw [List.length_take]
      exact Nat.min_le_left _ _
  · intro hlen
    have h2 := h.2 hlen
    constructor
    · rw [h2]
    · intro url e hl
      unfold loadYoutubeDocs
      rw [hl, h2]

/-- Witness for C4 at a concrete 101-character description. -/
theorem c4_witness :
    get_youtube_transcript envC4 ("abc".toList) =
      (some ((List.replicate 101 'a').take 2000, S_DESCRIPTION),
        [Strategy.transcriptService, Strategy.descriptionFallback]) ∧
    ((List.replicate 101 'a').take 2000).length ≤ 2000 := by
  have h := (c4_description_fallback envC4 ("abc".toList) infoC4 rfl rfl).1 (by decide)
  exact ⟨h.1, h.2.2⟩

theorem take_len_append (a b : List Char) : (a ++ b).take a.length = a := by
  induction a with
  | nil => simp
  | cons x xs ih => simp [ih]

/-- Claim C5 (counterexample): an error whose message contains "quota" does
not always yield the quota-specific message: when `chain.run` raises
"invalid api key: quota exceeded" (which contains "quota"), the user sees the
invalid-credential message, which differs from the quota message. -/
theorem c5_error_counterexample :
    (runPipeline envC5 inpC5).errorsShown = [MSG_INVALID_KEY] ∧
    strContains S_QUOTA_SUB (pyLower ("invalid api key: quota exceeded".toList)) = true ∧
    MSG_INVALID_KEY ≠ MSG_QUOTA :=
  ⟨rfl, rfl, by decide⟩

/-- Claim C5 (amended): the handler checks the credential substrings before
"quota" on the lowercased message: "groq_api_key"/"api key" yield the
invalid-credential message even when "quota" is also present; otherwise
"quota" yields the quota message; otherwise the unexpected message carries
the raw text.  The three messages are pairwise distinct, and a raising run
whose summarization call happened displays exactly the classified message. -/
theorem c5_error_classification (e : List Char) :
    ((strContains S_GROQ_KEY_SUB (pyLower e) = true ∨
      strContains S_API_KEY_SUB (pyLower e) = true) →
      classify_error e = MSG_INVALID_KEY) ∧
    (strContains S_GROQ_KEY_SUB (pyLower e) = false →
      strContains S_API_KEY_SUB (pyLower e) = false →
      strContains S_QUOTA_SUB (pyLower e) = true → classify_error e = MSG_QUOTA) ∧
    (strContains S_GROQ_KEY_SUB (pyLower e) = false →
      strContains S_API_KEY_SUB (pyLower e) = false →
      strContains S_QUOTA_SUB (pyLower e) = false →
      classify_error e = MSG_UNEXPECTED_PREFIX ++ e) ∧
    MSG_INVALID_KEY ≠ MSG_QUOTA ∧
    MSG_INVALID_KEY ≠ MSG_UNEXPECTED_PREFIX ++ e ∧
    MSG_QUOTA ≠ MSG_UNEXPECTED_PREFIX ++ e ∧
    (∀ env inp c, env.chainRun = Except.error e →
      (runPipeline env inp).summCall = some c →
      (runPipeline env inp).errorsShown = [classify_error e]) := by
  refine ⟨?_, ?_, ?_, by decide, ?_, ?_, ?_⟩
  · intro h
    unfold classify_error
    rw [if_pos (Bool.or_eq_true .. ▸ h)]
  · intro hg ha hq
    unfold classify_error
    rw [if_neg (by simp [hg, ha]), if_pos hq]
  · intro hg ha hq
    unfold classify_error
    rw [if_neg (by simp [hg, ha]), if_neg (by simp [hq])]
  · intro h
    have h2 := congrArg (List.take MSG_UNEXPECTED_PREFIX.length) h
    rw [take_len_append] at h2
    exact absurd h2 (by decide)
  · intro h
    have h2 := congrArg (List.take MSG_UNEXPECTED_PREFIX.length) h
    rw [take_len_append] at h2
    exact absurd h2 (by decide)
  · intro env inp c hcr hsc
    exact ((runPipeline_summCall env inp c hsc).2.2.2.2.2 e hcr).1

/-- Witness for C5: a plain quota message is classified to the quota banner. -/
theorem c5_witness : classify_error ("Daily quota reached".toList) = MSG_QUOTA :=
  (c5_error_classification ("Daily quota reached".toList)).2.1 (by decide) (by decide)
    (by decide)

/-- Claim C6 (counterexample): the prompt template is not exactly
"Provide a summary of the following content in 300 words:\nContent:{text}":
the source literal carries a leading newline and two trailing newlines, and
the filled prompt differs accordingly. -/
theorem c6_prompt_counterexample :
    prompt_template ≠
      "Provide a summary of the following content in 300 words:\nContent:{text}".toList ∧
    prompt_template =
      "\nProvide a summary of the following content in 300 words:\nContent:{text}\n\n".toList ∧
    stuffPrompt docC6 ≠
      "Provide a summary of the following content in 300 words:\nContent:X".toList ∧
    stuffPrompt docC6 =
      "\nProvide a summary of the following content in 300 words:\nContent:X\n\n".toList :=
  ⟨by decide, rfl, by decide, rfl⟩

/-- Claim C6 (amended): every summarization call the pipeline makes uses model
"gemma2-9b-it", chain type "stuff" (single request, no chunking), and the
fixed template with a leading and two trailing newlines around the claimed
text; filling it with a single Document's content gives exactly
prefix ++ content ++ "\n\n"; on success the chain's output is displayed
verbatim. -/
theorem c6_summarize_call (env : Env) (inp : Inputs) (c : SummarizeCall)
    (h : (runPipeline env inp).summCall = some c) :
    c.model = "gemma2-9b-it".toList ∧ c.chainType = "stuff".toList ∧
    c.template = prompt_template ∧
    (∀ d : SimpleDoc, c.docs = [d] →
      stuffPrompt d =
        "\nProvide a summary of the following content in 300 words:\nContent:".toList
          ++ d.page_content ++ "\n\n".toList) ∧
    (∀ out, env.chainRun = Except.ok out → (runPipeline env inp).shownSummary = some out) := by
  have hs := runPipeline_summCall env inp c h
  refine ⟨hs.1, hs.2.1, hs.2.2.1, ?_, fun out hout => (hs.2.2.2.2.1 out hout).1⟩
  intro d hd
  have hsplit : pySplit S_TEXTVAR prompt_template =
      ["\nProvide a summary of the following content in 300 words:\nContent:".toList,
        "\n\n".toList] := by decide
  unfold stuffPrompt fillTemplate
  rw [hsplit]
  simp [List.intercalate]

/-- Witness for C6 at a concrete website run whose document content is "X". -/
theorem c6_witness :
    stuffPrompt docC6
        = "\nProvide a summary of the following content in 300 words:\nContent:".toList
          ++ docC6.page_content ++ "\n\n".toList ∧
    (runPipeline envC6 inpC6).shownSummary = some ("a fine summary".toList) := by
  have h := c6_summarize_call envC6 inpC6 (mkSummCall [docC6]) rfl
  exact ⟨h.2.2.2.1 docC6 rfl, h.2.2.2.2 ("a fine summary".toList) rfl⟩

theorem get_youtube_transcript_allfail (env : Env) (vid : List Char)
    (hf : env.transcript.failed = true) (hy : env.ytdlp.failed = true) :
    (get_youtube_transcript env vid).1 = none := by
  unfold get_youtube_transcript
  cases htr : env.transcript with
  | ok items => rw [htr] at hf; simp [ApiOutcome.failed] at hf
  | importError =>
    cases hyd : env.ytdlp with
    | ok info => rw [hyd] at hy; simp [ApiOutcome.failed] at hy
    | importError => rfl
    | failure m => rfl
  | failure m0 =>
    cases hyd : env.ytdlp with
    | ok info => rw [hyd] at hy; simp [ApiOutcome.failed] at hy
    | importError => rfl
    | failure m => rfl

/-- Claim C8 (counterexample): on the primary-loader path the code checks only
that the document list is non-empty (`if docs and len(docs) > 0`), so a loader
returning one empty-content document reaches the summarization call with an
empty `page_content`. -/
theorem c8_nonempty_counterexample :
    (runPipeline envC8 inpC8).summCall = some (mkSummCall [docC8]) ∧
    docC8.page_content = [] :=
  ⟨rfl, rfl⟩

/-- Claim C8 (amended): the Documents list handed to the summarization call is
always non-empty, and on the transcript-service and description-fallback paths
the single acquired Document's content is non-empty; on the primary-loader and
website paths content non-emptiness is not checked — the external loader's
documents are used as returned. -/
theorem c8_nonempty_amended :
    (∀ env inp c, (runPipeline env inp).summCall = some c → c.docs ≠ []) ∧
    (∀ env url vid e ds, env.loaderResult = Except.error e →
      (loadYoutubeDocs env url vid).1 = some ds →
      ∃ text method, ds = [⟨text, [(S_SOURCE_KEY, url), (S_METHOD_KEY, method)]⟩]
        ∧ text ≠ []) := by
  constructor
  · intro env inp c h
    exact (runPipeline_summCall env inp c h).2.2.2.1
  · intro env url vid e ds hl h
    obtain ⟨text, method, -, ht, hds, -⟩ := loadYoutubeDocs_fallback env url vid e hl ds h
    exact ⟨text, method, hds, ht⟩

/-- Witness for C8 at a concrete website run. -/
theorem c8_witness : (mkSummCall [docC8w]).docs ≠ [] :=
  c8_nonempty_amended.1 envC8w inpC8w (mkSummCall [docC8w]) rfl

/-- Claim C9 (counterexample): on the primary-loader success path no "method"
metadata entry is recorded: the loader's document is used with whatever
metadata it came with, here an empty bag, so the metadata does not name the
strategy that succeeded. -/
theorem c9_method_counterexample :
    (loadYoutubeDocs envC9 urlC9 ("aircAruvnKk".toList)).1 = some [docC9] ∧
    metadataMethod docC9 = none :=
  ⟨rfl, rfl⟩

/-- Claim C9 (amended): on the fallback paths (primary loader failed) every
acquired Document records in its "method" metadata entry exactly the strategy
that succeeded: "transcript-api" when the transcript service succeeded, and
"description" (transcript service failed) otherwise; on the primary-loader and
website paths the metadata is the external loader's own, untouched. -/
theorem c9_method_amended (env : Env) (url vid e : List Char) (ds : List SimpleDoc)
    (hl : env.loaderResult = Except.error e)
    (h : (loadYoutubeDocs env url vid).1 = some ds) :
    ∃ text method, ds = [⟨text, [(S_SOURCE_KEY, url), (S_METHOD_KEY, method)]⟩] ∧
      metadataMethod ⟨text, [(S_SOURCE_KEY, url), (S_METHOD_KEY, method)]⟩ = some method ∧
      ((∃ items, env.transcript = ApiOutcome.ok items ∧ method = S_TRANSCRIPT_API) ∨
        (env.transcript.failed = true ∧ method = S_DESCRIPTION)) := by
  obtain ⟨text, method, hgt, ht, hds, -⟩ := loadYoutubeDocs_fallback env url vid e hl ds h
  refine ⟨text, method, hds, ?_, ?_⟩
  · unfold metadataMethod
    simp [List.lookup, show (S_METHOD_KEY == S_SOURCE_KEY) = false by decide]
  · cases htr : env.transcript with
    | ok items =>
      rw [get_youtube_transcript_ok env vid items htr] at hgt
      have hp := Option.some.inj hgt
      exact Or.inl ⟨items, rfl, (congrArg Prod.snd hp).symm⟩
    | importError =>
      cases hyd : env.ytdlp with
      | ok info =>
        have harm := get_youtube_transcript_notok env vid info (by rw [htr]; rfl) hyd
        by_cases hlen : 100 < (info.description.getD []).length
        · rw [harm.1 hlen] at hgt
          have hp := Option.some.inj hgt
          exact Or.inr ⟨rfl, (congrArg Prod.snd hp).symm⟩
        · rw [harm.2 (by omega)] at hgt
          exact absurd hgt (by simp)
      | importError =>
        rw [get_youtube_transcript_allfail env vid (by rw [htr]; rfl) (by rw [hyd]; rfl)] at hgt
        exact absurd hgt (by simp)
      | failure m =>
        rw [get_youtube_transcript_allfail env vid (by rw [htr]; rfl) (by rw [hyd]; rfl)] at hgt
        exact absurd hgt (by simp)
    | failure m0 =>
      cases hyd : env.ytdlp with
      | ok info =>
        have harm := get_youtube_transcript_notok env vid info (by rw [htr]; rfl) hyd
        by_cases hlen : 100 < (info.description.getD []).length
        · rw [harm.1 hlen] at hgt
          have hp := Option.some.inj hgt
          exact Or.inr ⟨rfl, (congrArg Prod.snd hp).symm⟩
        · rw [harm.2 (by omega)] at hgt
          exact absurd hgt (by simp)
      | importError =>
        rw [get_youtube_transcript_allfail env vid (by rw [htr]; rfl) (by rw [hyd]; rfl)] at hgt
        exact absurd hgt (by simp)
      | failure m =>
        rw [get_youtube_transcript_allfail env vid (by rw [htr]; rfl) (by rw [hyd]; rfl)] at hgt
        exact absurd hgt (by simp)

/-- Witness for C9 at a concrete transcript-service success. -/
theorem c9_witness :
    ∃ text method,
      ([⟨"Hello".toList, [(S_SOURCE_KEY, urlC9), (S_METHOD_KEY, S_TRANSCRIPT_API)]⟩]
          : List SimpleDoc)
        = [⟨text, [(S_SOURCE_KEY, urlC9), (S_METHOD_KEY, method)]⟩] ∧
      metadataMethod ⟨text, [(S_SOURCE_KEY, urlC9), (S_METHOD_KEY, method)]⟩ = some method ∧
      ((∃ items, envC9w.transcript = ApiOutcome.ok items ∧ method = S_TRANSCRIPT_API) ∨
        (envC9w.transcript.failed = true ∧ method = S_DESCRIPTION)) :=
  c9_method_amended envC9w urlC9 ("aircAruvnKk".toList) ("loader down".toList)
    [⟨"Hello".toList, [(S_SOURCE_KEY, urlC9), (S_METHOD_KEY, S_TRANSCRIPT_API)]⟩] rfl rfl

/-- Claim C10: on a URL whose text after the first "watch?v=" is empty the
extractor returns the empty string rather than nothing, and the pipeline
treats the empty-string id exactly like a missing id: the extraction-failure
error (followed by the no-content error) is shown, no acquisition strategy
block runs, and the summarizer is never invoked — the observable result is
identical in both cases. -/
theorem c10_empty_id (env : Env) (inp : Inputs) (pre : List Char)
    (hk : (pyStrip inp.groq_api_key).isEmpty = false)
    (hu : (pyStrip inp.generic_url).isEmpty = false)
    (hv : env.urlValid = true) (hllm : env.llmInit = Except.ok ())
    (hyt : (strContains S_YOUTUBECOM inp.generic_url
      || strContains S_YTBE inp.generic_url) = true) :
    (strContains S_YTWATCH inp.generic_url = true →
      splitFirst S_WATCHV inp.generic_url = some (pre, []) →
      extract_video_id inp.generic_url = Except.ok (some [])) ∧
    ((extract_video_id inp.generic_url = Except.ok none ∨
      extract_video_id inp.generic_url = Except.ok (some [])) →
      runPipeline env inp = mkRunResult [MSG_NO_VIDEO_ID, MSG_NO_CONTENT] [] none none none) := by
  constructor
  · intro hc hsf
    unfold extract_video_id
    rw [if_pos hc, pySplit_get1 S_WATCHV inp.generic_url pre [] (by decide) hsf]
    rfl
  · intro hex
    have h1f : ((pyStrip inp.groq_api_key).isEmpty
        || (pyStrip inp.generic_url).isEmpty) = false := by
      rw [hk, hu]
      rfl
    rw [runPipeline_eq_go env inp h1f hv]
    rcases hex with hex | hex
    · rw [tryBody_eq_noid env inp.generic_url () hllm hyt hex]
      rfl
    · rw [tryBody_eq_emptyid env inp.generic_url () hllm hyt hex]
      rfl

/-- Witness for C10 at the URL "https://www.youtube.com/watch?v=". -/
theorem c10_witness :
    extract_video_id ("https://www.youtube.com/watch?v=".toList) = Except.ok (some []) ∧
    runPipeline baseEnv inpC10
      = mkRunResult [MSG_NO_VIDEO_ID, MSG_NO_CONTENT] [] none none none := by
  have h := c10_empty_id baseEnv inpC10 ("https://www.youtube.com/".toList)
    rfl rfl rfl rfl (by decide)
  have hex := h.1 (by decide) (by decide)
  exact ⟨hex, h.2 (Or.inr hex)⟩
